import Mathlib

/-!
# Weather Station API — shallow embedding

A shallow embedding of the Flask application in `app.py` (and its deployed
copy `src/app.py`, whose route handlers are behaviourally identical for the
properties studied here) together with the demo cloud-function handler in
`src/handler.py`.

Modelling conventions:
* JSON body values are modelled by `JVal`; a Python `dict.get` that may miss
  is an `Option JVal`.  Python truthiness of a value is `JVal.truthy`;
  a JSON `null` parses to Python `None`, so `data.get(k) is None` holds both
  when the key is absent and when its value is null (`isNoneLike`).
* UUIDs are modelled as `String`, datetimes as `ℤ` (seconds), and the
  fixed-point `Numeric(5, 2)` temperature column as `ℚ`.  The `float(...)`
  conversions applied by the handlers before `jsonify` are idealised as exact
  (the spec flags float conversion as an implementation detail); SQL
  `avg`/`max`/`min`/`count` over the filtered rows are modelled as exact list
  aggregates.  `round(x, 2)` is modelled by `round2`.
* The database is a `Store` (lists of station and reading rows); each handler
  is a pure function from its request data and the store to a response and
  the new store.  Autoincremented ids, `os.urandom` keys, `bcrypt.gensalt`
  salts and the server clock enter as explicit parameters.  `bcrypt.hashpw`
  and `bcrypt.checkpw` are external library calls, passed in as opaque
  function parameters.  A commit that the database rejects is modelled by the
  `commitOk` flag (station insert) or by the numeric cast failing (reading
  insert); in both cases the handler's `except` branch rolls back, so the
  store is returned unchanged.
* The `created_at` station column (a server default never read by any
  handler) is elided from the `Station` row.
-/

/-- A JSON value as it appears in a parsed request body. -/
inductive JVal where
  | jnull
  | jstr (s : String)
  | jnum (q : ℚ)
  | jbool (b : Bool)
  deriving DecidableEq, Repr

/-- Python truthiness of a JSON-decoded value (`if not v:` tests). -/
def JVal.truthy : JVal → Bool
  | .jnull => false
  | .jstr s => !s.isEmpty
  | .jnum q => q != 0
  | .jbool b => b

/-- Truthiness of `data.get(k)`: an absent key gives Python `None`, which is
falsy. -/
def optTruthy : Option JVal → Bool
  | none => false
  | some v => v.truthy

/-- `data.get(k) is None`: true when the key is absent or its JSON value is
null (JSON null decodes to Python `None`). -/
def isNoneLike : Option JVal → Bool
  | none => true
  | some .jnull => true
  | some _ => false

/-- Decimal-digit run parser, used by `parseDecimal?`. -/
def parseDigits? (cs : List Char) : Option ℕ :=
  match cs with
  | [] => none
  | _ =>
    cs.foldl
      (fun acc c =>
        match acc with
        | none => none
        | some a => if c.isDigit then some (a * 10 + (c.toNat - 48)) else none)
      (some 0)

/-- Parse a decimal literal `digits` or `digits.digits`, optionally signed.
Models the PostgreSQL cast of a string bound parameter to `numeric`. -/
def parseDecimal? (s : String) : Option ℚ :=
  let step : List Char → Option ℚ := fun cs =>
    match cs.splitOn '.' with
    | [intPart] =>
      match parseDigits? intPart with
      | some n => some (n : ℚ)
      | none => none
    | [intPart, fracPart] =>
      match parseDigits? intPart, parseDigits? fracPart with
      | some n, some f => some ((n : ℚ) + (f : ℚ) / ((10 : ℚ) ^ fracPart.length))
      | _, _ => none
    | _ => none
  match s.toList with
  | '-' :: rest => (step rest).map (fun q => -q)
  | '+' :: rest => step rest
  | cs => step cs

/-- The numeric cast the store applies when persisting `temperature_celsius`:
JSON numbers pass through, Python booleans are ints (`True` is 1), strings go
through the database's decimal cast, and anything else fails, raising in
`db.session.commit()`. -/
def storeCast : JVal → Option ℚ
  | .jnum q => some q
  | .jbool b => some (if b then 1 else 0)
  | .jstr s => parseDecimal? s
  | .jnull => none

/-- A row of the `stations` table. -/
structure Station where
  station_id : String
  name : JVal
  location_text : Option JVal
  api_key_hash : String
  deriving DecidableEq, Repr

/-- A row of the `readings` table. -/
structure Reading where
  reading_id : ℕ
  station_id : String
  temperature_celsius : ℚ
  timestamp : ℤ
  deriving DecidableEq, Repr

/-- The relational store. -/
structure Store where
  stations : List Station
  readings : List Reading
  deriving DecidableEq, Repr

/-- `Station.query.get(station_id)`: primary-key lookup. -/
def findStation (s : Store) (sid : String) : Option Station :=
  s.stations.find? (fun st => st.station_id == sid)

/-- A reading as serialised by `get_readings` (`reading_id`,
`temperature_celsius`, `timestamp`). -/
structure ReadingOut where
  reading_id : ℕ
  temperature_celsius : ℚ
  timestamp : ℤ
  deriving DecidableEq, Repr

/-- HTTP responses produced by the route handlers. -/
inductive Resp where
  /-- A 200 response carrying only a message (the index route and the
  summary's no-data sentinel). -/
  | msg (m : String)
  /-- The 201 station-created response, the only response carrying a
  plaintext API key. -/
  | created (station_id : String) (api_key : String)
  /-- The 201 reading-submitted response. -/
  | submitted
  /-- The 200 readings-list response. -/
  | readingsOut (rs : List ReadingOut)
  /-- The 200 summary response with aggregates. -/
  | summaryOut (station_id : String) (reading_count : ℕ) (avg mx mn : ℚ)
  /-- An error response with its HTTP status code and `error` message. -/
  | err (code : ℕ) (m : String)
  deriving DecidableEq, Repr

/-- The plaintext API key a response exposes, if any: only the
station-created response carries one. -/
def Resp.apiKeyOf : Resp → Option String
  | .created _ k => some k
  | _ => none

/-- `GET /` (`index`). -/
def index : Resp := Resp.msg "Weather Station API is running!"

/-- Body of `POST /stations`. -/
structure StationBody where
  name : Option JVal
  location_text : Option JVal
  deriving DecidableEq, Repr

/-- `POST /stations` (`create_station`).  `freshKey` is the
`os.urandom(24).hex()` key, `salt` the `bcrypt.gensalt()` salt, `freshId` the
generated UUID; `commitOk` is whether `db.session.commit()` succeeds. -/
def create_station (hashpw : String → String → String)
    (freshKey salt freshId : String) (commitOk : Bool)
    (body : Option StationBody) (s : Store) : Resp × Store :=
  match body with
  | none => (Resp.err 400 "Station name is required", s)
  | some data =>
    if !optTruthy data.name then
      (Resp.err 400 "Station name is required", s)
    else
      let hashed := hashpw freshKey salt
      let newStation : Station :=
        { station_id := freshId
          name := data.name.getD JVal.jnull
          location_text := data.location_text
          api_key_hash := hashed }
      if commitOk then
        (Resp.created freshId freshKey,
          { s with stations := s.stations ++ [newStation] })
      else
        (Resp.err 500 "Could not create station", s)

/-- Body of `POST /readings`. -/
structure ReadingBody where
  station_id : Option JVal
  temperature_celsius : Option JVal
  deriving DecidableEq, Repr

/-- `POST /readings` (`submit_reading`).  `apiKey` is the `x-api-key` header,
`now` the server-assigned ingestion timestamp, `freshId` the autoincremented
reading id.  A body `station_id` that is truthy but not a string would make
`Station.query.get` raise an uncaught cast error (Flask's generic 500); no
claim exercises that path. -/
def submit_reading (checkpw : String → String → Bool) (apiKey : Option String)
    (body : Option ReadingBody) (now : ℤ) (freshId : ℕ) (s : Store) :
    Resp × Store :=
  match apiKey with
  | none => (Resp.err 401 "API key is missing", s)
  | some key =>
    match body with
    | none => (Resp.err 400 "station_id and temperature_celsius are required", s)
    | some data =>
      if !optTruthy data.station_id || isNoneLike data.temperature_celsius then
        (Resp.err 400 "station_id and temperature_celsius are required", s)
      else
        match data.station_id with
        | some (JVal.jstr sid) =>
          match findStation s sid with
          | none => (Resp.err 404 "Station not found", s)
          | some st =>
            if !checkpw key st.api_key_hash then
              (Resp.err 401 "Invalid API key", s)
            else
              match storeCast (data.temperature_celsius.getD JVal.jnull) with
              | none => (Resp.err 500 "Could not save reading", s)
              | some q =>
                (Resp.submitted,
                  { s with readings := s.readings ++
                      [{ reading_id := freshId
                         station_id := st.station_id
                         temperature_celsius := q
                         timestamp := now }] })
        | _ => (Resp.err 500 "Internal Server Error", s)

/-- Readings ordered most-recent-first: `ORDER BY timestamp DESC`. -/
def tsDescOrder (a b : Reading) : Prop := b.timestamp ≤ a.timestamp

instance : DecidableRel tsDescOrder := fun a b =>
  inferInstanceAs (Decidable (b.timestamp ≤ a.timestamp))

instance : IsTotal Reading tsDescOrder :=
  ⟨fun a b => le_total b.timestamp a.timestamp⟩

instance : IsTrans Reading tsDescOrder :=
  ⟨fun _ _ _ hab hbc => le_trans hbc hab⟩

/-- Serialisation of a reading row by `get_readings`. -/
def readingOut (r : Reading) : ReadingOut :=
  { reading_id := r.reading_id
    temperature_celsius := r.temperature_celsius
    timestamp := r.timestamp }

/-- `GET /stations/<station_id>/readings` (`get_readings`). -/
def get_readings (station_id : String) (s : Store) : Resp :=
  match findStation s station_id with
  | none => Resp.err 404 "Station not found"
  | some _ =>
    let rs := s.readings.filter (fun r => r.station_id == station_id)
    Resp.readingsOut ((rs.insertionSort tsDescOrder).map readingOut)

/-- `round(x, 2)`: rounding a rational to two decimal places
(half rounds up; the half-to-even tie-breaking of Python's float `round` is a
float artefact outside this exact-rational model). -/
def round2 (q : ℚ) : ℚ := (⌊q * 100 + 1 / 2⌋ : ℚ) / 100

/-- The temperatures of the readings the summary query aggregates over: the
station's readings with `timestamp >= now - 24 hours`. -/
def windowTemps (station_id : String) (now : ℤ) (s : Store) : List ℚ :=
  (s.readings.filter
      (fun r => r.station_id == station_id && decide (now - 86400 ≤ r.timestamp))).map
    (fun r => r.temperature_celsius)

/-- The no-data sentinel returned by `get_summary` when the window holds no
readings. -/
def noDataResp : Resp :=
  Resp.msg "No readings for this station in the last 24 hours."

/-- `GET /stations/<station_id>/summary` (`get_summary`).  `now` is
`datetime.utcnow()` at query time.  The SQL `count`/`avg`/`max`/`min`
aggregates over the filtered rows are modelled as list aggregates; `avg` is
exact (the `numeric` column) and is then rounded to two decimals as by
`round(float(avg), 2)`. -/
def get_summary (station_id : String) (now : ℤ) (s : Store) : Resp :=
  match findStation s station_id with
  | none => Resp.err 404 "Station not found"
  | some _ =>
    match windowTemps station_id now s with
    | [] => noDataResp
    | t :: ts =>
      Resp.summaryOut station_id (ts.length + 1)
        (round2 ((t :: ts).sum / (ts.length + 1 : ℚ)))
        (ts.foldl max t) (ts.foldl min t)

/-- The response shape of the demo cloud-function handler. -/
structure HandlerResponse where
  statusCode : ℕ
  headers : List (String × String)
  body : String
  deriving DecidableEq, Repr

/-- `hello` in `src/handler.py`: the demo entry point.  It ignores its
`event` and `context` arguments (of arbitrary type) and touches no `Store`. -/
def hello {α β : Type} (event : α) (context : β) : HandlerResponse :=
  { statusCode := 200
    headers := [("Content-Type", "application/json")]
    body := "\x7b\"message\": \"Success! The CI/CD pipeline is working.\"\x7d" }

/-! ## Concrete fixtures used by witnesses and counterexamples -/

/-- A registered station used in concrete evaluations. -/
def demoStation : Station :=
  { station_id := "s1"
    name := JVal.jstr "A"
    location_text := none
    api_key_hash := "h1" }

/-- A second registered station. -/
def demoStation2 : Station :=
  { station_id := "s2"
    name := JVal.jstr "B"
    location_text := some (JVal.jstr "hill")
    api_key_hash := "h2" }

/-- A concrete store: two stations; station `s1` has three recent readings
and one old one, station `s2` has one recent reading. -/
def demoStore : Store :=
  { stations := [demoStation, demoStation2]
    readings :=
      [ { reading_id := 1, station_id := "s1", temperature_celsius := 10, timestamp := 100 }
      , { reading_id := 2, station_id := "s1", temperature_celsius := 20, timestamp := 200 }
      , { reading_id := 3, station_id := "s1", temperature_celsius := 30, timestamp := 300 }
      , { reading_id := 4, station_id := "s2", temperature_celsius := 99, timestamp := 250 }
      , { reading_id := 5, station_id := "s1", temperature_celsius := 50, timestamp := -999999 } ] }

/-! ## Claims -/

/-- C9: for every event and context input, the demo entry point `hello`
returns the same fixed success payload — status code 200 with a constant
JSON body — and, its type mentioning no `Store`, reads or writes no state
shared with the API. -/
theorem hello_constant_payload :
    ∀ (α β : Type) (event : α) (context : β),
      hello event context =
        { statusCode := 200
          headers := [("Content-Type", "application/json")]
          body := "\x7b\"message\": \"Success! The CI/CD pipeline is working.\"\x7d" } :=
  fun _ _ _ _ => rfl

/-- C6: every `POST /stations` request whose body is missing or whose `name`
field is absent or falsy (in particular the empty string) is rejected with
400 and the store is returned unchanged — no station row is persisted. -/
theorem create_station_empty_name_rejected
    (hashpw : String → String → String) (freshKey salt freshId : String)
    (commitOk : Bool) (body : Option StationBody) (s : Store)
    (hname : ∀ data, body = some data → optTruthy data.name = false) :
    create_station hashpw freshKey salt freshId commitOk body s =
      (Resp.err 400 "Station name is required", s) := by
  cases body with
  | none => rfl
  | some data =>
    have h := hname data rfl
    simp [create_station, h]

/-- Witness for C6 at a concrete input: an empty name on `demoStore`. -/
theorem create_station_empty_name_rejected_witness :
    create_station (fun k _ => k) "key0" "salt0" "id9" true
        (some { name := some (JVal.jstr ""), location_text := none }) demoStore =
      (Resp.err 400 "Station name is required", demoStore) :=
  create_station_empty_name_rejected (fun k _ => k) "key0" "salt0" "id9" true
    (some { name := some (JVal.jstr ""), location_text := none }) demoStore
    (fun data h => by cases h; decide)

/-- C10: a `POST /readings` request that carries a credential header but
whose body `station_id` is falsy (empty string, null, zero, …) is rejected
with 400 — not 404 — because field presence is tested by truthiness, and the
store is untouched; the conclusion holds uniformly in the store `s`, so the
store is never consulted. -/
theorem submit_reading_falsy_station_id_400
    (checkpw : String → String → Bool) (key : String) (data : ReadingBody)
    (now : ℤ) (freshId : ℕ) (s : Store)
    (hfalsy : optTruthy data.station_id = false) :
    submit_reading checkpw (some key) (some data) now freshId s =
      (Resp.err 400 "station_id and temperature_celsius are required", s) := by
  simp [submit_reading, hfalsy]

/-- Witness for C10 at a concrete input: an empty-string `station_id` with a
credential present, on `demoStore`. -/
theorem submit_reading_falsy_station_id_400_witness :
    submit_reading (fun _ _ => true) (some "anykey")
        (some { station_id := some (JVal.jstr "")
                temperature_celsius := some (JVal.jnum 20) }) 0 9 demoStore =
      (Resp.err 400 "station_id and temperature_celsius are required", demoStore) :=
  submit_reading_falsy_station_id_400 (fun _ _ => true) "anykey"
    { station_id := some (JVal.jstr ""), temperature_celsius := some (JVal.jnum 20) }
    0 9 demoStore (by decide)

/-- C3: a well-formed `POST /readings` request for an existing station whose
presented secret fails verification against the station's stored hash is
answered 401 and the store is returned unchanged — no reading row is
created. -/
theorem submit_reading_bad_key_401_no_write
    (checkpw : String → String → Bool) (key sid : String) (temp : JVal)
    (now : ℤ) (freshId : ℕ) (s : Store) (st : Station)
    (hsid : (JVal.jstr sid).truthy = true)
    (htemp : isNoneLike (some temp) = false)
    (hst : findStation s sid = some st)
    (hauth : checkpw key st.api_key_hash = false) :
    submit_reading checkpw (some key)
        (some { station_id := some (JVal.jstr sid), temperature_celsius := some temp })
        now freshId s =
      (Resp.err 401 "Invalid API key", s) := by
  simp [submit_reading, optTruthy, hsid, htemp, hst, hauth]

/-- Witness for C3 at a concrete input: a rejecting verifier on station `s1`
of `demoStore`. -/
theorem submit_reading_bad_key_401_no_write_witness :
    submit_reading (fun _ _ => false) (some "wrong")
        (some { station_id := some (JVal.jstr "s1")
                temperature_celsius := some (JVal.jnum 20) }) 400 9 demoStore =
      (Resp.err 401 "Invalid API key", demoStore) :=
  submit_reading_bad_key_401_no_write (fun _ _ => false) "wrong" "s1" (JVal.jnum 20)
    400 9 demoStore demoStation (by decide) (by decide) (by decide) rfl

/-- C1 counterexample: with the credential header ABSENT and a body naming a
station id that does not exist (`"ghost"` is in no station row), the handler
answers 401 "API key is missing" — it never looks the station up and does not
return 404, refuting the clause that the station lookup occurs regardless of
credential presence. -/
theorem submit_reading_unknown_station_counterexample :
    findStation demoStore "ghost" = none ∧
    submit_reading (fun _ _ => true) none
        (some { station_id := some (JVal.jstr "ghost")
                temperature_celsius := some (JVal.jnum 20) }) 0 9 demoStore =
      (Resp.err 401 "API key is missing", demoStore) ∧
    Resp.err 401 "API key is missing" ≠ Resp.err 404 "Station not found" :=
  ⟨by decide, rfl, by decide⟩

/-- C1 amended: when a credential header IS present, a well-formed body
naming a nonexistent station is answered 404 regardless of the credential's
validity (the key is never verified — `checkpw` is arbitrary); when the
credential header is absent, the handler answers 401 without inspecting the
body or consulting the store. -/
theorem submit_reading_unknown_station_404
    (checkpw : String → String → Bool) (key sid : String) (temp : JVal)
    (now : ℤ) (freshId : ℕ) (s : Store)
    (hsid : (JVal.jstr sid).truthy = true)
    (htemp : isNoneLike (some temp) = false)
    (hmiss : findStation s sid = none) :
    submit_reading checkpw (some key)
        (some { station_id := some (JVal.jstr sid), temperature_celsius := some temp })
        now freshId s =
      (Resp.err 404 "Station not found", s) ∧
    ∀ (body : Option ReadingBody),
      submit_reading checkpw none body now freshId s =
        (Resp.err 401 "API key is missing", s) := by
  constructor
  · simp [submit_reading, optTruthy, hsid, htemp, hmiss]
  · intro body; rfl

/-- Witness for the amended C1 at a concrete input: station `"ghost"` on
`demoStore`, a present key of arbitrary validity. -/
theorem submit_reading_unknown_station_404_witness :
    submit_reading (fun _ _ => false) (some "whatever")
        (some { station_id := some (JVal.jstr "ghost")
                temperature_celsius := some (JVal.jnum 20) }) 0 9 demoStore =
      (Resp.err 404 "Station not found", demoStore) ∧
    ∀ (body : Option ReadingBody),
      submit_reading (fun _ _ => false) none body 0 9 demoStore =
        (Resp.err 401 "API key is missing", demoStore) :=
  submit_reading_unknown_station_404 (fun _ _ => false) "whatever" "ghost"
    (JVal.jnum 20) 0 9 demoStore (by decide) (by decide) (by decide)

/-- C2 counterexample: a present but non-numeric temperature (`"abc"`), with
a valid key and an existing station, passes the handler's only temperature
check (`is None`), reaches the store, fails its numeric cast and is answered
with the store-level 500 — not the claimed 400. -/
theorem submit_reading_nonnumeric_temp_counterexample :
    submit_reading (fun _ _ => true) (some "k")
        (some { station_id := some (JVal.jstr "s1")
                temperature_celsius := some (JVal.jstr "abc") }) 0 9 demoStore =
      (Resp.err 500 "Could not save reading", demoStore) ∧
    ∀ m, Resp.err 500 "Could not save reading" ≠ Resp.err 400 m := by
  refine ⟨rfl, fun m h => ?_⟩
  simp at h

/-- C2 amended: an absent or JSON-null temperature is rejected with 400
(`ValidationError`); but a PRESENT non-numeric temperature passes validation
— for an existing station and a verifying key it reaches the store, whose
failed cast raises, is rolled back, and is answered 500 with no row
created. -/
theorem submit_reading_temp_validation
    (checkpw : String → String → Bool) (key : String) (data : ReadingBody)
    (now : ℤ) (freshId : ℕ) (s : Store) :
    (isNoneLike data.temperature_celsius = true →
      submit_reading checkpw (some key) (some data) now freshId s =
        (Resp.err 400 "station_id and temperature_celsius are required", s)) ∧
    (∀ (sid : String) (temp : JVal) (st : Station),
      data.station_id = some (JVal.jstr sid) →
      data.temperature_celsius = some temp →
      (JVal.jstr sid).truthy = true →
      isNoneLike (some temp) = false →
      findStation s sid = some st →
      checkpw key st.api_key_hash = true →
      storeCast temp = none →
      submit_reading checkpw (some key) (some data) now freshId s =
        (Resp.err 500 "Could not save reading", s)) := by
  constructor
  · intro hnull
    simp [submit_reading, hnull]
  · intro sid temp st hsid htempeq htruthy hpresent hst hauth hcast
    simp [submit_reading, hsid, htempeq, optTruthy, htruthy, hpresent, hst, hauth, hcast]

/-- Witness for the amended C2 at concrete inputs: a null temperature gives
400; the non-numeric string `"abc"` on station `s1` of `demoStore` with a
verifying key gives 500. -/
theorem submit_reading_temp_validation_witness :
    (submit_reading (fun _ _ => true) (some "k")
        (some { station_id := some (JVal.jstr "s1")
                temperature_celsius := some JVal.jnull }) 0 9 demoStore =
      (Resp.err 400 "station_id and temperature_celsius are required", demoStore)) ∧
    (submit_reading (fun _ _ => true) (some "k")
        (some { station_id := some (JVal.jstr "s1")
                temperature_celsius := some (JVal.jstr "abc") }) 0 9 demoStore =
      (Resp.err 500 "Could not save reading", demoStore)) :=
  ⟨(submit_reading_temp_validation (fun _ _ => true) "k"
      { station_id := some (JVal.jstr "s1"), temperature_celsius := some JVal.jnull }
      0 9 demoStore).1 (by decide),
   (submit_reading_temp_validation (fun _ _ => true) "k"
      { station_id := some (JVal.jstr "s1"), temperature_celsius := some (JVal.jstr "abc") }
      0 9 demoStore).2 "s1" (JVal.jstr "abc") demoStation rfl rfl (by decide) (by decide)
      (by decide) rfl (by decide)⟩

/-- C5: for an existing station whose trailing 24-hour window holds no
readings, the summary is the explicit no-data sentinel, and that sentinel is
distinct from every aggregate response — in particular from any zero-valued
aggregate. -/
theorem get_summary_no_data_sentinel
    (sid : String) (now : ℤ) (s : Store) (st : Station)
    (hst : findStation s sid = some st)
    (hempty : windowTemps sid now s = []) :
    get_summary sid now s = noDataResp ∧
    ∀ (sid2 : String) (c : ℕ) (a mx mn : ℚ),
      noDataResp ≠ Resp.summaryOut sid2 c a mx mn := by
  constructor
  · simp [get_summary, hst, hempty]
  · intro sid2 c a mx mn h
    simp [noDataResp] at h

/-- Witness for C5 at a concrete input: station `s1` of `demoStore` queried
at a time far after all its readings, so the window is empty. -/
theorem get_summary_no_data_sentinel_witness :
    windowTemps "s1" 1000000000 demoStore = [] ∧
    get_summary "s1" 1000000000 demoStore = noDataResp :=
  ⟨by decide,
   (get_summary_no_data_sentinel "s1" 1000000000 demoStore demoStation
      (by decide) (by decide)).1⟩

/-- The left fold of `max` over `ts` starting from `t` is an element of
`t :: ts`. -/
theorem foldl_max_mem (t : ℚ) (ts : List ℚ) : ts.foldl max t ∈ t :: ts := by
  induction ts generalizing t with
  | nil => simp
  | cons b bs ih =>
    simp only [List.foldl]
    rcases List.mem_cons.mp (ih (max t b)) with h | h
    · rw [h]
      rcases max_choice t b with hm | hm <;> rw [hm] <;> simp
    · simp [h]

/-- The left fold of `max` over `ts` starting from `t` bounds every element
of `t :: ts` from above. -/
theorem foldl_max_ub (t : ℚ) (ts : List ℚ) : ∀ x ∈ t :: ts, x ≤ ts.foldl max t := by
  induction ts generalizing t with
  | nil =>
    intro x hx
    simp only [List.mem_singleton] at hx
    simp [hx]
  | cons b bs ih =>
    intro x hx
    simp only [List.foldl]
    rcases List.mem_cons.mp hx with rfl | hx
    · exact (le_max_left x b).trans (ih (max x b) _ (List.mem_cons_self _ _))
    · rcases List.mem_cons.mp hx with rfl | hx
      · exact (le_max_right t x).trans (ih (max t x) _ (List.mem_cons_self _ _))
      · exact ih (max t b) x (List.mem_cons.mpr (Or.inr hx))

/-- The left fold of `min` over `ts` starting from `t` is an element of
`t :: ts`. -/
theorem foldl_min_mem (t : ℚ) (ts : List ℚ) : ts.foldl min t ∈ t :: ts := by
  induction ts generalizing t with
  | nil => simp
  | cons b bs ih =>
    simp only [List.foldl]
    rcases List.mem_cons.mp (ih (min t b)) with h | h
    · rw [h]
      rcases min_choice t b with hm | hm <;> rw [hm] <;> simp
    · simp [h]

/-- The left fold of `min` over `ts` starting from `t` bounds every element
of `t :: ts` from below. -/
theorem foldl_min_lb (t : ℚ) (ts : List ℚ) : ∀ x ∈ t :: ts, ts.foldl min t ≤ x := by
  induction ts generalizing t with
  | nil =>
    intro x hx
    simp only [List.mem_singleton] at hx
    simp [hx]
  | cons b bs ih =>
    intro x hx
    simp only [List.foldl]
    rcases List.mem_cons.mp hx with rfl | hx
    · exact (ih (min x b) _ (List.mem_cons_self _ _)).trans (min_le_left x b)
    · rcases List.mem_cons.mp hx with rfl | hx
      · exact (ih (min t x) _ (List.mem_cons_self _ _)).trans (min_le_right t x)
      · exact ih (min t b) x (List.mem_cons.mpr (Or.inr hx))

/-- C4: for an existing station whose trailing 24-hour window is non-empty,
the summary's count is the number of in-window readings of that station
(readings of other stations and out-of-window readings being excluded by the
filter defining `windowTemps`), its average is their sum divided by the
count and rounded to two decimals, and its max/min are true extrema of the
window: members of the set bounding it above resp. below. -/
theorem get_summary_aggregates_correct
    (sid : String) (now : ℤ) (s : Store) (st : Station)
    (hst : findStation s sid = some st)
    (hne : windowTemps sid now s ≠ []) :
    ∃ (c : ℕ) (a mx mn : ℚ),
      get_summary sid now s = Resp.summaryOut sid c a mx mn ∧
      c = (windowTemps sid now s).length ∧
      a = round2 ((windowTemps sid now s).sum / (c : ℚ)) ∧
      mx ∈ windowTemps sid now s ∧ (∀ x ∈ windowTemps sid now s, x ≤ mx) ∧
      mn ∈ windowTemps sid now s ∧ (∀ x ∈ windowTemps sid now s, mn ≤ x) := by
  match hW : windowTemps sid now s with
  | [] => exact absurd hW hne
  | t :: ts =>
    refine ⟨ts.length + 1, round2 ((t :: ts).sum / (ts.length + 1 : ℚ)),
      ts.foldl max t, ts.foldl min t, ?_, ?_, ?_, ?_, ?_, ?_, ?_⟩
    · simp [get_summary, hst, hW]
    · simp
    · push_cast
      rfl
    · exact foldl_max_mem t ts
    · exact foldl_max_ub t ts
    · exact foldl_min_mem t ts
    · exact foldl_min_lb t ts

/-- Witness for C4 at a concrete input: station `s1` of `demoStore` queried
at time 86500, whose window holds exactly the temperatures 10, 20, 30. -/
theorem get_summary_aggregates_correct_witness :
    windowTemps "s1" 86500 demoStore ≠ [] ∧
    (∃ (c : ℕ) (a mx mn : ℚ),
      get_summary "s1" 86500 demoStore = Resp.summaryOut "s1" c a mx mn ∧
      c = (windowTemps "s1" 86500 demoStore).length ∧
      a = round2 ((windowTemps "s1" 86500 demoStore).sum / (c : ℚ)) ∧
      mx ∈ windowTemps "s1" 86500 demoStore ∧
      (∀ x ∈ windowTemps "s1" 86500 demoStore, x ≤ mx) ∧
      mn ∈ windowTemps "s1" 86500 demoStore ∧
      (∀ x ∈ windowTemps "s1" 86500 demoStore, mn ≤ x)) :=
  ⟨by decide,
   get_summary_aggregates_correct "s1" 86500 demoStore demoStation
     (by decide) (by decide)⟩

/-- C7: listing the readings of an absent station fails with 404; for a
present station the response serialises a list holding exactly the station's
readings — a permutation of the filter selecting them, with no pagination or
limit — ordered by timestamp descending (most recent first). -/
theorem get_readings_listing_correct (sid : String) (s : Store) :
    (findStation s sid = none →
      get_readings sid s = Resp.err 404 "Station not found") ∧
    (∀ st, findStation s sid = some st →
      ∃ l : List Reading,
        get_readings sid s = Resp.readingsOut (l.map readingOut) ∧
        l.Perm (s.readings.filter (fun r => r.station_id == sid)) ∧
        List.Sorted tsDescOrder l) := by
  constructor
  · intro h
    simp [get_readings, h]
  · intro st h
    refine ⟨(s.readings.filter (fun r => r.station_id == sid)).insertionSort tsDescOrder,
      ?_, ?_, ?_⟩
    · simp [get_readings, h]
    · exact List.perm_insertionSort tsDescOrder _
    · exact List.sorted_insertionSort tsDescOrder _

/-- Witness for C7 at concrete inputs: the absent station `"ghost"` gets
404; station `s1` of `demoStore` gets its own readings, sorted
newest-first. -/
theorem get_readings_listing_correct_witness :
    (findStation demoStore "ghost" = none ∧
      get_readings "ghost" demoStore = Resp.err 404 "Station not found") ∧
    (findStation demoStore "s1" = some demoStation ∧
      ∃ l : List Reading,
        get_readings "s1" demoStore = Resp.readingsOut (l.map readingOut) ∧
        l.Perm (demoStore.readings.filter (fun r => r.station_id == "s1")) ∧
        List.Sorted tsDescOrder l) :=
  ⟨⟨by decide, (get_readings_listing_correct "ghost" demoStore).1 (by decide)⟩,
   ⟨by decide, (get_readings_listing_correct "s1" demoStore).2 demoStation (by decide)⟩⟩

/-- No response of `submit_reading` carries a plaintext API key, and the
handler never touches the `stations` table (in particular, stored hashes are
unchanged). -/
theorem submit_reading_no_key_exposed
    (checkpw : String → String → Bool) (apiKey : Option String)
    (body : Option ReadingBody) (now : ℤ) (freshId : ℕ) (s : Store) :
    Resp.apiKeyOf (submit_reading checkpw apiKey body now freshId s).1 = none ∧
    (submit_reading checkpw apiKey body now freshId s).2.stations = s.stations := by
  unfold submit_reading
  repeat' split
  all_goals exact ⟨rfl, rfl⟩

/-- No response of `get_readings` carries a plaintext API key. -/
theorem get_readings_no_key_exposed (sid : String) (s : Store) :
    Resp.apiKeyOf (get_readings sid s) = none := by
  unfold get_readings
  repeat' split
  all_goals rfl

/-- C8: a successful station creation stores exactly the salted hash
`hashpw freshKey salt` of the issued secret — so, the hash being one-way
(`hashpw freshKey salt ≠ freshKey`) and the key fresh, no stored hash equals
the plaintext — and the invariant is preserved: reading submission leaves the
stations table untouched, and no response of any endpoint other than the
creation itself carries an API key. -/
theorem create_station_stores_only_hash
    (hashpw : String → String → String) (checkpw : String → String → Bool)
    (freshKey salt freshId : String) (body : StationBody) (s : Store)
    (hname : optTruthy body.name = true)
    (honeway : hashpw freshKey salt ≠ freshKey)
    (hfresh : ∀ st ∈ s.stations, st.api_key_hash ≠ freshKey) :
    (create_station hashpw freshKey salt freshId true (some body) s).1 =
        Resp.created freshId freshKey ∧
    (∃ st ∈ (create_station hashpw freshKey salt freshId true (some body) s).2.stations,
        st.station_id = freshId ∧ st.api_key_hash = hashpw freshKey salt) ∧
    (∀ st ∈ (create_station hashpw freshKey salt freshId true (some body) s).2.stations,
        st.api_key_hash ≠ freshKey) ∧
    (∀ (apiKey : Option String) (bdy : Option ReadingBody) (now : ℤ) (rid : ℕ),
      Resp.apiKeyOf
          (submit_reading checkpw apiKey bdy now rid
            (create_station hashpw freshKey salt freshId true (some body) s).2).1 = none ∧
      (submit_reading checkpw apiKey bdy now rid
            (create_station hashpw freshKey salt freshId true (some body) s).2).2.stations =
        (create_station hashpw freshKey salt freshId true (some body) s).2.stations) ∧
    (∀ sid2 : String,
      Resp.apiKeyOf
        (get_readings sid2
          (create_station hashpw freshKey salt freshId true (some body) s).2) = none) ∧
    (∀ (sid2 : String) (now : ℤ),
      Resp.apiKeyOf
        (get_summary sid2 now
          (create_station hashpw freshKey salt freshId true (some body) s).2) = none) ∧
    Resp.apiKeyOf index = none := by
  have hout : create_station hashpw freshKey salt freshId true (some body) s =
      (Resp.created freshId freshKey,
        { s with stations := s.stations ++
            [{ station_id := freshId
               name := body.name.getD JVal.jnull
               location_text := body.location_text
               api_key_hash := hashpw freshKey salt }] }) := by
    simp [create_station, hname]
  rw [hout]
  refine ⟨rfl, ?_, ?_, ?_, ?_, ?_, rfl⟩
  · exact ⟨_, List.mem_append_right _ (List.mem_singleton_self _), rfl, rfl⟩
  · intro st hst
    rcases List.mem_append.mp hst with hmem | hmem
    · exact hfresh st hmem
    · rcases List.mem_singleton.mp hmem with rfl
      exact honeway
  · intro apiKey bdy now rid
    exact submit_reading_no_key_exposed checkpw apiKey bdy now rid _
  · intro sid2
    exact get_readings_no_key_exposed sid2 _
  · intro sid2 now
    unfold get_summary
    repeat' split
    all_goals rfl

/-- A concrete stand-in for `bcrypt.hashpw` used by the C8 witness: prefixes
the salt, so it never returns its input key. -/
def hashpwDemo : String → String → String := fun k sa => "$2b$" ++ sa ++ k

/-- A concrete creation body used by the C8 witness. -/
def demoStationBody : StationBody :=
  { name := some (JVal.jstr "A"), location_text := none }

/-- Witness for C8 at a concrete input: creating a station on `demoStore`
with key `"key0"` and salt `"aa"`. -/
theorem create_station_stores_only_hash_witness :
    optTruthy demoStationBody.name = true ∧
    hashpwDemo "key0" "aa" ≠ "key0" ∧
    (∀ st ∈ demoStore.stations, st.api_key_hash ≠ "key0") ∧
    ((create_station hashpwDemo "key0" "aa" "id9" true (some demoStationBody) demoStore).1 =
        Resp.created "id9" "key0" ∧
      (∃ st ∈ (create_station hashpwDemo "key0" "aa" "id9" true
            (some demoStationBody) demoStore).2.stations,
          st.station_id = "id9" ∧ st.api_key_hash = hashpwDemo "key0" "aa") ∧
      (∀ st ∈ (create_station hashpwDemo "key0" "aa" "id9" true
            (some demoStationBody) demoStore).2.stations,
          st.api_key_hash ≠ "key0") ∧
      (∀ (apiKey : Option String) (bdy : Option ReadingBody) (now : ℤ) (rid : ℕ),
        Resp.apiKeyOf
            (submit_reading (fun _ _ => true) apiKey bdy now rid
              (create_station hashpwDemo "key0" "aa" "id9" true
                (some demoStationBody) demoStore).2).1 = none ∧
        (submit_reading (fun _ _ => true) apiKey bdy now rid
              (create_station hashpwDemo "key0" "aa" "id9" true
                (some demoStationBody) demoStore).2).2.stations =
          (create_station hashpwDemo "key0" "aa" "id9" true
            (some demoStationBody) demoStore).2.stations) ∧
      (∀ sid2 : String,
        Resp.apiKeyOf
          (get_readings sid2
            (create_station hashpwDemo "key0" "aa" "id9" true
              (some demoStationBody) demoStore).2) = none) ∧
      (∀ (sid2 : String) (now : ℤ),
        Resp.apiKeyOf
          (get_summary sid2 now
            (create_station hashpwDemo "key0" "aa" "id9" true
              (some demoStationBody) demoStore).2) = none) ∧
      Resp.apiKeyOf index = none) :=
  ⟨by decide, by decide, by decide,
   create_station_stores_only_hash hashpwDemo (fun _ _ => true) "key0" "aa" "id9"
     demoStationBody demoStore (by decide) (by decide) (by decide)⟩
